import Mathlib

/-!
Verification of the synthetic time-series generator and training orchestrator
of `src/RNN/TMVA/TMVA_Models_Reduced.C` (functions `MakeTimeData` and
`TMVA_RNN_Classification`).

The generator is embedded as a pure function of an explicit noise stream
`rng : ℕ → ℝ`: the shared ROOT generator `gRandom` is consumed in a fully
static order (per event `i` and time step `j`: 1000 fill draws for the
histogram `h1`, 1000 fill draws for `h2`, then for each bin `k` one noise
draw for `x1[j][k]` followed by one for `x2[j][k]`), so each draw has a
closed-form position in the stream.  A Gaussian(mean, sigma) variate is
modelled as `mean + sigma * u` with `u` the standard variate delivered by
the stream.  Histogram `TH1D(name, title, ndim, 0, 10)` bin contents after
`FillRandom(f, 1000)` are counts of draws falling in the half-open bin
intervals of `[0,10)`.
-/

namespace Gen

/-- Output-file name built at line 44 of the source:
`TString::Format("time_data_t%d_d%d.root", ntime, ndim)`. -/
def fname (ntime ndim : ℕ) : String :=
  "time_data_t" ++ toString ntime ++ "_d" ++ toString ndim ++ ".root"

/-- Number of random draws consumed per (event, time-step) pair:
1000 for each of the two histogram fills plus two noise draws per bin. -/
def blockSize (ndim : ℕ) : ℕ := 2000 + 2 * ndim

/-- Stream position at which the draws of event `i`, time step `j` start. -/
def base (ntime ndim i j : ℕ) : ℕ := (i * ntime + j) * blockSize ndim

/-- A Gaussian(mean, sigma) variate obtained from the standard variate `u`
supplied by the noise stream. -/
noncomputable def gausDraw (mean sigma u : ℝ) : ℝ := mean + sigma * u

/-- Source line 82: `mean1[j] = 5. + 0.2 * sin(TMath::Pi() * j / double(ntime))`. -/
noncomputable def mean1 (ntime j : ℕ) : ℝ :=
  5 + 0.2 * Real.sin (Real.pi * j / ntime)

/-- Source line 83: `mean2[j] = 5. + 0.2 * cos(TMath::Pi() * j / double(ntime))`. -/
noncomputable def mean2 (ntime j : ℕ) : ℝ :=
  5 + 0.2 * Real.cos (Real.pi * j / ntime)

/-- Source line 84: `sigma1[j] = 4 + 0.3 * sin(TMath::Pi() * j / double(ntime))`. -/
noncomputable def sigma1 (ntime j : ℕ) : ℝ :=
  4 + 0.3 * Real.sin (Real.pi * j / ntime)

/-- Source line 85: `sigma2[j] = 4 + 0.3 * cos(TMath::Pi() * j / double(ntime))`. -/
noncomputable def sigma2 (ntime j : ℕ) : ℝ :=
  4 + 0.3 * Real.cos (Real.pi * j / ntime)

/-- Membership of a value in bin `k` (0-based) of a `ndim`-bin histogram over
`[0,10]`; `GetBinContent(k+1)` counts exactly the fills landing here. -/
def inBin (ndim k : ℕ) (v : ℝ) : Prop :=
  (10 * k / ndim : ℝ) ≤ v ∧ v < (10 * (k + 1) / ndim : ℝ)

open scoped Classical in
/-- Content of bin `k` of a `ndim`-bin histogram over `[0,10]` after
`Reset()` followed by `FillRandom(f, 1000)` whose 1000 draws are `draws 0`,
…, `draws 999`. -/
noncomputable def binContent (ndim : ℕ) (draws : ℕ → ℝ) (k : ℕ) : ℕ :=
  ((Finset.range 1000).filter (fun m => inBin ndim k (draws m))).card

/-- Source line 106: `x1[j][k] = h1->GetBinContent(k + 1) + gRandom->Gaus(0, 10)`
with `h1` filled from `f1` carrying parameters `(1, mean1[j], sigma1[j])`.
The `x1` buffers are branched into the `bkg` tree (line 69). -/
noncomputable def x1val (rng : ℕ → ℝ) (ntime ndim i j k : ℕ) : ℝ :=
  (binContent ndim
      (fun m => gausDraw (mean1 ntime j) (sigma1 ntime j)
        (rng (base ntime ndim i j + m))) k : ℝ)
    + gausDraw 0 10 (rng (base ntime ndim i j + 2000 + 2 * k))

/-- Source line 107: `x2[j][k] = h2->GetBinContent(k + 1) + gRandom->Gaus(0, 10)`
with `h2` filled from `f2` carrying parameters `(1, mean2[j], sigma2[j])`.
The `x2` buffers are branched into the `sgn` tree (line 70). -/
noncomputable def x2val (rng : ℕ → ℝ) (ntime ndim i j k : ℕ) : ℝ :=
  (binContent ndim
      (fun m => gausDraw (mean2 ntime j) (sigma2 ntime j)
        (rng (base ntime ndim i j + 1000 + m))) k : ℝ)
    + gausDraw 0 10 (rng (base ntime ndim i j + 2000 + 2 * k + 1))

/-- The entry filled into the `sgn` tree for event `i`: for each time step
`j` the branch buffer `x2[j]`, a vector of `ndim` features. -/
noncomputable def sgnSample (rng : ℕ → ℝ) (ntime ndim i : ℕ) : List (List ℝ) :=
  (List.range ntime).map (fun j =>
    (List.range ndim).map (fun k => x2val rng ntime ndim i j k))

/-- The entry filled into the `bkg` tree for event `i`. -/
noncomputable def bkgSample (rng : ℕ → ℝ) (ntime ndim i : ℕ) : List (List ℝ) :=
  (List.range ntime).map (fun j =>
    (List.range ndim).map (fun k => x1val rng ntime ndim i j k))

/-- Observable result of one `MakeTimeData` run. -/
structure GenResult where
  fileName : String
  branchNames : List String
  sgnEntries : List (List (List ℝ))
  bkgEntries : List (List (List ℝ))
  written : Bool
  canvasDrawn : Bool

/-- Embedding of `MakeTimeData(n, ntime, ndim)` (source lines 40-135):
the trees receive one `Fill()` per event; `sgn.Write()`, `bkg.Write()` and
`f.Close()` run only under `if (n > 1)` (line 128); the diagnostic canvas
is drawn inside the event loop under `if (n == 1)` (line 114). -/
noncomputable def MakeTimeData (rng : ℕ → ℝ) (n ntime ndim : ℕ) : GenResult :=
  { fileName := fname ntime ndim
    branchNames := (List.range ntime).map (fun i => "vars_time" ++ toString i)
    sgnEntries := (List.range n).map (fun i => sgnSample rng ntime ndim i)
    bkgEntries := (List.range n).map (fun i => bkgSample rng ntime ndim i)
    written := decide (1 < n)
    canvasDrawn := decide (n = 1) }

end Gen

/-- Transcription of the spec formula `signal_mean[j] = 5 + 0.2 * sin(pi * j / n_time)`
(spec section 4.1), to be compared against the source's `mean1`. -/
noncomputable def spec_signal_mean (ntime j : ℕ) : ℝ :=
  5 + 0.2 * Real.sin (Real.pi * j / ntime)

/-- Transcription of the spec formula `background_mean[j] = 5 + 0.2 * cos(pi * j / n_time)`. -/
noncomputable def spec_background_mean (ntime j : ℕ) : ℝ :=
  5 + 0.2 * Real.cos (Real.pi * j / ntime)

/-- Transcription of the spec formula `signal_sigma[j] = 4 + 0.3 * sin(pi * j / n_time)`. -/
noncomputable def spec_signal_sigma (ntime j : ℕ) : ℝ :=
  4 + 0.3 * Real.sin (Real.pi * j / ntime)

/-- Transcription of the spec formula `background_sigma[j] = 4 + 0.3 * cos(pi * j / n_time)`. -/
noncomputable def spec_background_sigma (ntime j : ℕ) : ℝ :=
  4 + 0.3 * Real.cos (Real.pi * j / ntime)

/-- Transcription of the spec sentence (section 4.1): the k-th feature of the
signal vector at step j is the k-th bin count of a D-bin histogram over
`[0,10]` filled with 1000 draws from Gaussian(signal_mean[j], signal_sigma[j]),
plus Gaussian(0,10) noise; the draws are taken at the stream positions the
program devotes to the signal-tree fill of event `i`, step `j`. -/
noncomputable def specSignalFeature (rng : ℕ → ℝ) (ntime ndim i j k : ℕ) : ℝ :=
  (Gen.binContent ndim
      (fun m => Gen.gausDraw (spec_signal_mean ntime j) (spec_signal_sigma ntime j)
        (rng (Gen.base ntime ndim i j + 1000 + m))) k : ℝ)
    + Gen.gausDraw 0 10 (rng (Gen.base ntime ndim i j + 2000 + 2 * k + 1))

namespace Orch

/-- Source line 145: `const int ninput = 30`. -/
def ninput : ℕ := 30

/-- Source line 146: `const int ntime = 10`. -/
def ntime : ℕ := 10

/-- Source line 147: `const int batchSize = 100`. -/
def batchSize : ℕ := 100

/-- Source line 148: `const int maxepochs = 20`. -/
def maxepochs : ℕ := 20

/-- Source line 150: `int nTotEvts = 10000`. -/
def nTotEvts : ℕ := 10000

/-- Source line 200: `TString inputFileName = "time_data_t10_d30.root"`. -/
def inputFileName : String := "time_data_t10_d30.root"

/-- Source line 159: `std::vector<std::string> rnn_types = {"RNN", "LSTM", "GRU"}`. -/
def rnn_types : List String := ["RNN", "LSTM", "GRU"]

/-- Source lines 160-164: `use_rnn_type` starts as `{1, 1, 1}` and, when
`0 <= use_type < 3`, is reset to all-zero with a single 1 at `use_type`. -/
def use_rnn_type (useType : ℤ) : List Bool :=
  if 0 ≤ useType ∧ useType < 3 then
    (List.range 3).map (fun i => decide ((i : ℤ) = useType))
  else [true, true, true]

/-- Source line 293: `const char* rnn_type = rnn_types[0].c_str()` - the
index is the literal 0, independent of `use_type` and of `use_rnn_type`. -/
def rnn_type : String := rnn_types.getD 0 ""

/-- Source line 333: `TString rnnName = "TMVA_" + TString(rnn_type)`. -/
def rnnName : String := "TMVA_" ++ rnn_type

/-- Source line 299: `Format("InputLayout=%d|%d", ntime, ninput)`. -/
def inputLayoutString : String :=
  "InputLayout=" ++ toString ntime ++ "|" ++ toString ninput

/-- Source line 303: `Format("%s|10|%d|%d|0|1", rnn_type, ninput, ntime)`. -/
def rnnLayout : String :=
  rnn_type ++ "|10|" ++ toString ninput ++ "|" ++ toString ntime ++ "|0|1"

/-- Source line 307: `TString("Layout=") + rnnLayout + ",RESHAPE|FLAT,DENSE|64|TANH,LINEAR"`. -/
def layoutString : String :=
  "Layout=" ++ rnnLayout ++ ",RESHAPE|FLAT,DENSE|64|TANH,LINEAR"

/-- Source lines 310-315: the first (and only) training-strategy string. -/
def trainingString1 : String :=
  "LearningRate=1e-3,Momentum=0.0,Repetitions=1,ConvergenceSteps=5,BatchSize="
    ++ toString batchSize
    ++ ",TestRepetitions=1,WeightDecay=1e-2,Regularization=None,MaxEpochs="
    ++ toString maxepochs ++ ",Optimizer=ADAM,DropConfig=0.0+0.+0.+0."

/-- Source lines 317-318: `TrainingStrategy=` followed by `trainingString1`. -/
def trainingStrategyString : String := "TrainingStrategy=" ++ trainingString1

/-- Source lines 321-331: the full option string passed to `BookMethod`,
assembled around the architecture string ("GPU" or "CPU"). -/
def rnnOptions (archString : String) : String :=
  "!H:V:ErrorStrategy=CROSSENTROPY:VarTransform=None:"
    ++ "WeightInitialization=XAVIERUNIFORM:ValidationSize=0.2:RandomSeed=1234"
    ++ ":" ++ inputLayoutString ++ ":" ++ layoutString ++ ":"
    ++ trainingStrategyString ++ ":" ++ "Architecture=" ++ archString

/-- Source lines 272-273: `int nTrainSig = 0.8 * nTotEvts` (the positive
product truncates to its floor on conversion to `int`). -/
def nTrainSig : ℤ := ⌊(0.8 : ℚ) * (nTotEvts : ℚ)⌋

/-- Source line 273, same value for the background count. -/
def nTrainBkg : ℤ := ⌊(0.8 : ℚ) * (nTotEvts : ℚ)⌋

/-- Source line 276: the option string for `PrepareTrainingAndTestTree`. -/
def prepareOptions : String :=
  "nTrain_Signal=" ++ toString nTrainSig
    ++ ":nTrain_Background=" ++ toString nTrainBkg
    ++ ":SplitMode=Random:SplitSeed=100:NormMode=NumEvents:!V:!CalcCorrelations"

/-- Environment facts the orchestrator reacts to: whether the dataset file
exists before the run (line 202) and whether `TFile::Open` returns a
non-null handle afterwards (line 209). -/
structure Env where
  fileExists : Bool
  openSucceeds : Bool

/-- Observable trace of one `TMVA_RNN_Classification` run. -/
structure Trace where
  generationAttempted : Bool
  errorEmitted : Bool
  abortedEarly : Bool
  variablesDeclared : List (String × ℕ)
  bookedMethods : List (String × String)
  trained : Bool
  tested : Bool
  evaluated : Bool

/-- Embedding of `TMVA_RNN_Classification(use_type)` (source lines 143-363):
generation runs iff the file is absent (lines 202-207); a null handle from
`TFile::Open` emits `Error(...)` and returns at once (lines 209-213),
before any `AddVariablesArray`, `BookMethod` or `TrainAllMethods` call;
otherwise ten array variables of width `ninput` are declared and the single
method `rnnName` is booked with options `rnnOptions`. -/
def TMVA_RNN_Classification (useType : ℤ) (archString : String) (env : Env) : Trace :=
  if env.openSucceeds then
    { generationAttempted := !env.fileExists
      errorEmitted := false
      abortedEarly := false
      variablesDeclared :=
        (List.range ntime).map (fun i => ("vars_time" ++ toString i, ninput))
      bookedMethods := [(rnnName, rnnOptions archString)]
      trained := true
      tested := true
      evaluated := true }
  else
    { generationAttempted := !env.fileExists
      errorEmitted := true
      abortedEarly := true
      variablesDeclared := []
      bookedMethods := []
      trained := false
      tested := false
      evaluated := false }

end Orch

namespace Gen

/-- Indexing a mapped range with `getD` inside the range returns the image. -/
theorem getD_map_range {α : Type} (f : ℕ → α) (n i : ℕ) (a : α) (h : i < n) :
    ((List.range n).map f).getD i a = f i := by
  rw [List.getD_eq_getElem _ _ (by simpa using h)]
  simp

/-- If every one of the 1000 draws lands in bin `k`, its content is 1000. -/
theorem binContent_all (ndim : ℕ) (draws : ℕ → ℝ) (k : ℕ)
    (h : ∀ m, m < 1000 → inBin ndim k (draws m)) :
    binContent ndim draws k = 1000 := by
  classical
  unfold binContent
  rw [Finset.filter_true_of_mem (fun m hm => h m (Finset.mem_range.mp hm))]
  exact Finset.card_range 1000

/-- If none of the 1000 draws lands in bin `k`, its content is 0. -/
theorem binContent_none (ndim : ℕ) (draws : ℕ → ℝ) (k : ℕ)
    (h : ∀ m, m < 1000 → ¬ inBin ndim k (draws m)) :
    binContent ndim draws k = 0 := by
  classical
  unfold binContent
  rw [Finset.filter_false_of_mem (fun m hm => h m (Finset.mem_range.mp hm))]
  exact Finset.card_empty

/-- Bin contents only depend on the 1000 draws actually filled. -/
theorem binContent_congr (ndim k : ℕ) (d1 d2 : ℕ → ℝ)
    (h : ∀ m, m < 1000 → d1 m = d2 m) :
    binContent ndim d1 k = binContent ndim d2 k := by
  classical
  unfold binContent
  exact congrArg Finset.card
    (Finset.filter_congr (fun m hm => by rw [h m (Finset.mem_range.mp hm)]))

/-- All stream positions consumed for event `i < n`, step `j < ntime` lie
below `n * ntime * blockSize ndim`. -/
theorem base_add_block_le (n ntime ndim i j : ℕ) (hi : i < n) (hj : j < ntime) :
    base ntime ndim i j + blockSize ndim ≤ n * ntime * blockSize ndim := by
  have h1 : i * ntime + j + 1 ≤ n * ntime := by
    calc i * ntime + j + 1 ≤ i * ntime + ntime := by omega
    _ = (i + 1) * ntime := by ring
    _ ≤ n * ntime := Nat.mul_le_mul_right _ hi
  calc base ntime ndim i j + blockSize ndim
      = (i * ntime + j + 1) * blockSize ndim := by unfold base; ring
  _ ≤ n * ntime * blockSize ndim := Nat.mul_le_mul_right _ h1

/-- At time step 0 the sine vanishes: `mean1[0] = 5`. -/
theorem mean1_at_zero (ntime : ℕ) : mean1 ntime 0 = 5 := by
  simp [mean1]

/-- At time step 0 the cosine is 1: `mean2[0] = 5.2`. -/
theorem mean2_at_zero (ntime : ℕ) : mean2 ntime 0 = 5.2 := by
  simp [mean2]
  norm_num

/-- At time step 0: `sigma1[0] = 4`. -/
theorem sigma1_at_zero (ntime : ℕ) : sigma1 ntime 0 = 4 := by
  simp [sigma1]

/-- At time step 0: `sigma2[0] = 4.3`. -/
theorem sigma2_at_zero (ntime : ℕ) : sigma2 ntime 0 = 4.3 := by
  simp [sigma2]
  norm_num

/-- Signal-tree feature under a constant stream whose draw lands in bin `k`. -/
theorem x2val_const_in (c : ℝ) (ntime ndim i j k : ℕ)
    (h : inBin ndim k (gausDraw (mean2 ntime j) (sigma2 ntime j) c)) :
    x2val (fun _ => c) ntime ndim i j k = 1000 + (0 + 10 * c) := by
  unfold x2val
  rw [binContent_all ndim _ k (fun m _ => h)]
  norm_num [gausDraw]

/-- Signal-tree feature under a constant stream whose draw misses bin `k`. -/
theorem x2val_const_notIn (c : ℝ) (ntime ndim i j k : ℕ)
    (h : ¬ inBin ndim k (gausDraw (mean2 ntime j) (sigma2 ntime j) c)) :
    x2val (fun _ => c) ntime ndim i j k = 0 + (0 + 10 * c) := by
  unfold x2val
  rw [binContent_none ndim _ k (fun m _ => h)]
  norm_num [gausDraw]

end Gen

/-- The truncated product `0.8 * nTotEvts` of source line 272 is exactly 8000. -/
theorem nTrainSig_eq : Orch.nTrainSig = 8000 := by
  unfold Orch.nTrainSig Orch.nTotEvts
  norm_num

/-- Source line 273 computes the same count for the background tree. -/
theorem nTrainBkg_eq : Orch.nTrainBkg = 8000 := by
  unfold Orch.nTrainBkg Orch.nTotEvts
  norm_num

set_option maxRecDepth 40000 in
/-- C9: the orchestrator requests an 80/20 train/test split (8000 of the
10000 events per class) with `SplitMode=Random` under the fixed seed 100,
and the training configuration strings encode learning rate 1e-3, batch
size 100, max epochs 20, weight decay 1e-2, the ADAM optimizer,
cross-entropy loss and Xavier-uniform weight initialization. -/
theorem C9_split_and_hyperparameters :
    Orch.nTrainSig = 8000
    ∧ Orch.nTrainBkg = 8000
    ∧ 5 * Orch.nTrainSig = 4 * (Orch.nTotEvts : ℤ)
    ∧ Orch.prepareOptions
        = "nTrain_Signal=8000:nTrain_Background=8000:SplitMode=Random:SplitSeed=100:NormMode=NumEvents:!V:!CalcCorrelations"
    ∧ Orch.trainingStrategyString
        = "TrainingStrategy=LearningRate=1e-3,Momentum=0.0,Repetitions=1,ConvergenceSteps=5,BatchSize=100,TestRepetitions=1,WeightDecay=1e-2,Regularization=None,MaxEpochs=20,Optimizer=ADAM,DropConfig=0.0+0.+0.+0."
    ∧ (∀ archString, Orch.rnnOptions archString
        = "!H:V:ErrorStrategy=CROSSENTROPY:VarTransform=None:WeightInitialization=XAVIERUNIFORM:ValidationSize=0.2:RandomSeed=1234:InputLayout=10|30:Layout=RNN|10|30|10|0|1,RESHAPE|FLAT,DENSE|64|TANH,LINEAR:TrainingStrategy=LearningRate=1e-3,Momentum=0.0,Repetitions=1,ConvergenceSteps=5,BatchSize=100,TestRepetitions=1,WeightDecay=1e-2,Regularization=None,MaxEpochs=20,Optimizer=ADAM,DropConfig=0.0+0.+0.+0.:Architecture=" ++ archString) :=
  ⟨nTrainSig_eq, nTrainBkg_eq,
    by rw [nTrainSig_eq]; norm_num [Orch.nTotEvts],
    by unfold Orch.prepareOptions; rw [nTrainSig_eq, nTrainBkg_eq]; rfl,
    rfl, fun a => rfl⟩

/-- C10: the generated dataset's file name is a function of (T, D) only -
every run with the same (T, D) produces `time_data_t{T}_d{D}.root` whatever
`n` and the noise stream are - and at the orchestrator's constants
(T=10, D=30) it coincides with the file name whose existence the
orchestrator checks. -/
theorem C10_filename_depends_only_on_t_d :
    (∀ (rng1 rng2 : ℕ → ℝ) (n1 n2 ntime ndim : ℕ),
      (Gen.MakeTimeData rng1 n1 ntime ndim).fileName
        = (Gen.MakeTimeData rng2 n2 ntime ndim).fileName)
    ∧ (∀ (rng : ℕ → ℝ) (n ntime ndim : ℕ),
      (Gen.MakeTimeData rng n ntime ndim).fileName
        = "time_data_t" ++ toString ntime ++ "_d" ++ toString ndim ++ ".root")
    ∧ Gen.fname Orch.ntime Orch.ninput = Orch.inputFileName :=
  ⟨fun _ _ _ _ _ _ => rfl, fun _ _ _ _ => rfl, rfl⟩

/-- C2 (code bug): the selector is decoded into `use_rnn_type` correctly,
but the booked method is always the one built from `rnn_types[0]`: for
every `use_type` the factory books the single method `TMVA_RNN` whose
layer layout names the `RNN` cell, never `LSTM` or `GRU`. -/
theorem C2_use_type_ignored :
    Orch.use_rnn_type 1 = [false, true, false]
    ∧ Orch.use_rnn_type 2 = [false, false, true]
    ∧ Orch.rnnName = "TMVA_RNN"
    ∧ Orch.rnnLayout = "RNN|10|30|10|0|1"
    ∧ (∀ (useType : ℤ) (archString : String) (env : Orch.Env),
        (Orch.TMVA_RNN_Classification useType archString env).bookedMethods
          = (Orch.TMVA_RNN_Classification 1 archString env).bookedMethods) :=
  ⟨by decide, by decide, rfl, rfl, fun _ _ _ => rfl⟩

/-- C8: when `TFile::Open` yields a null handle the orchestrator emits the
diagnostic `Error(...)` and returns at once: no variable is declared, no
method is booked, and no training, testing or evaluation happens. -/
theorem C8_abort_on_open_failure (useType : ℤ) (archString : String)
    (env : Orch.Env) (h : env.openSucceeds = false) :
    (Orch.TMVA_RNN_Classification useType archString env).errorEmitted = true
    ∧ (Orch.TMVA_RNN_Classification useType archString env).abortedEarly = true
    ∧ (Orch.TMVA_RNN_Classification useType archString env).variablesDeclared = []
    ∧ (Orch.TMVA_RNN_Classification useType archString env).bookedMethods = []
    ∧ (Orch.TMVA_RNN_Classification useType archString env).trained = false := by
  simp [Orch.TMVA_RNN_Classification, h]

/-- Witness for C8 at the concrete run `use_type = 0`, CPU architecture,
with the file absent and the open failing. -/
theorem C8_abort_on_open_failure_witness :
    (Orch.Env.mk false false).openSucceeds = false
    ∧ ((Orch.TMVA_RNN_Classification 0 "CPU" (Orch.Env.mk false false)).errorEmitted = true
      ∧ (Orch.TMVA_RNN_Classification 0 "CPU" (Orch.Env.mk false false)).abortedEarly = true
      ∧ (Orch.TMVA_RNN_Classification 0 "CPU" (Orch.Env.mk false false)).variablesDeclared = []
      ∧ (Orch.TMVA_RNN_Classification 0 "CPU" (Orch.Env.mk false false)).bookedMethods = []
      ∧ (Orch.TMVA_RNN_Classification 0 "CPU" (Orch.Env.mk false false)).trained = false) :=
  ⟨rfl, C8_abort_on_open_failure 0 "CPU" (Orch.Env.mk false false) rfl⟩

/-- C5: the per-step generation parameters of the source (`mean1`, `mean2`,
`sigma1`, `sigma2`) coincide, for every step `j` in `[0, T)`, with the four
closed-form sinusoidal functions of `(j, T)` stated in the spec. -/
theorem C5_parameter_formulas (ntime j : ℕ) (_h : j < ntime) :
    Gen.mean1 ntime j = spec_signal_mean ntime j
    ∧ Gen.mean2 ntime j = spec_background_mean ntime j
    ∧ Gen.sigma1 ntime j = spec_signal_sigma ntime j
    ∧ Gen.sigma2 ntime j = spec_background_sigma ntime j :=
  ⟨rfl, rfl, rfl, rfl⟩

/-- Witness for C5 at the concrete step `j = 0` of a run with `T = 1`. -/
theorem C5_parameter_formulas_witness :
    0 < 1
    ∧ (Gen.mean1 1 0 = spec_signal_mean 1 0
      ∧ Gen.mean2 1 0 = spec_background_mean 1 0
      ∧ Gen.sigma1 1 0 = spec_signal_sigma 1 0
      ∧ Gen.sigma2 1 0 = spec_background_sigma 1 0) :=
  ⟨by decide, C5_parameter_formulas 1 0 (by decide)⟩

/-- C3 (counterexample): at the boundary `n = 1` the diagnostic canvas is
drawn but `sgn.Write()` and `bkg.Write()` are skipped (`if (n > 1)`), so
the single generated sample is never persisted, while a run with `n = 2`
does write; the claim's unchanged-persistence contract fails at `n = 1`. -/
theorem C3_single_event_not_written :
    (Gen.MakeTimeData (fun _ => 0) 1 10 30).written = false
    ∧ (Gen.MakeTimeData (fun _ => 0) 1 10 30).canvasDrawn = true
    ∧ (Gen.MakeTimeData (fun _ => 0) 2 10 30).written = true :=
  ⟨rfl, rfl, rfl⟩

/-- C3 (amended): for every valid input the two collections hold exactly
`n` samples each with one branch per time step, and the trees are written
to the store exactly when `n > 1`; at `n = 1` the visualization path runs
instead, and the single sample's numeric content is still produced by the
same per-event formula as in every other run. -/
theorem C3_amended_persistence (rng : ℕ → ℝ) (n ntime ndim : ℕ) :
    (Gen.MakeTimeData rng n ntime ndim).sgnEntries.length = n
    ∧ (Gen.MakeTimeData rng n ntime ndim).bkgEntries.length = n
    ∧ (Gen.MakeTimeData rng n ntime ndim).branchNames.length = ntime
    ∧ ((Gen.MakeTimeData rng n ntime ndim).written = true ↔ 1 < n)
    ∧ ((Gen.MakeTimeData rng n ntime ndim).canvasDrawn = true ↔ n = 1)
    ∧ (Gen.MakeTimeData rng 1 ntime ndim).sgnEntries = [Gen.sgnSample rng ntime ndim 0]
    ∧ (Gen.MakeTimeData rng 1 ntime ndim).bkgEntries = [Gen.bkgSample rng ntime ndim 0] := by
  refine ⟨?_, ?_, ?_, ?_, ?_, ?_, ?_⟩ <;> simp [Gen.MakeTimeData, List.range_succ]

/-- C4: every sample of either generated class has exactly `ntime` time
steps and every time step holds exactly `ndim` features; the bounds are the
`x1`/`x2` buffer shapes fixed once per run, hence identical across the
whole dataset. -/
theorem C4_shape_invariant (rng : ℕ → ℝ) (n ntime ndim : ℕ)
    (sample : List (List ℝ))
    (h : sample ∈ (Gen.MakeTimeData rng n ntime ndim).sgnEntries
      ∨ sample ∈ (Gen.MakeTimeData rng n ntime ndim).bkgEntries) :
    sample.length = ntime ∧ ∀ step ∈ sample, step.length = ndim := by
  rcases h with h | h
  · simp only [Gen.MakeTimeData, List.mem_map, List.mem_range] at h
    obtain ⟨i, -, rfl⟩ := h
    refine ⟨by simp [Gen.sgnSample], ?_⟩
    intro step hstep
    simp only [Gen.sgnSample, List.mem_map, List.mem_range] at hstep
    obtain ⟨j, -, rfl⟩ := hstep
    simp
  · simp only [Gen.MakeTimeData, List.mem_map, List.mem_range] at h
    obtain ⟨i, -, rfl⟩ := h
    refine ⟨by simp [Gen.bkgSample], ?_⟩
    intro step hstep
    simp only [Gen.bkgSample, List.mem_map, List.mem_range] at hstep
    obtain ⟨j, -, rfl⟩ := hstep
    simp

/-- Witness for C4 on the first signal sample of the run (n, T, D) = (1, 1, 1)
under the all-zero noise stream. -/
theorem C4_shape_invariant_witness :
    (Gen.sgnSample (fun _ => 0) 1 1 0 ∈ (Gen.MakeTimeData (fun _ => 0) 1 1 1).sgnEntries
      ∨ Gen.sgnSample (fun _ => 0) 1 1 0 ∈ (Gen.MakeTimeData (fun _ => 0) 1 1 1).bkgEntries)
    ∧ ((Gen.sgnSample (fun _ => 0) 1 1 0).length = 1
      ∧ ∀ step ∈ Gen.sgnSample (fun _ => 0) 1 1 0, step.length = 1) :=
  ⟨Or.inl (by simp [Gen.MakeTimeData, List.range_succ]),
    C4_shape_invariant (fun _ => 0) 1 1 1 _
      (Or.inl (by simp [Gen.MakeTimeData, List.range_succ]))⟩

/-- C6 (counterexample): at T = 2 both swept values of `mean1 + mean2` are
10.2, so every deviation from 10 is +0.2 and no step attains the mirrored
value 9.8: the sweep is not symmetric about 10. -/
theorem C6_not_symmetric_about_ten :
    ¬ (∀ j, j < 2 → ∃ k, k < 2 ∧
        Gen.mean1 2 k + Gen.mean2 2 k - 10 = -(Gen.mean1 2 j + Gen.mean2 2 j - 10)) := by
  intro hcl
  have h0 : Gen.mean1 2 0 + Gen.mean2 2 0 = 10.2 := by
    norm_num [Gen.mean1, Gen.mean2]
  have hpi : Real.pi * ((1 : ℕ) : ℝ) / ((2 : ℕ) : ℝ) = Real.pi / 2 := by
    push_cast
    ring
  have h1 : Gen.mean1 2 1 + Gen.mean2 2 1 = 10.2 := by
    simp only [Gen.mean1, Gen.mean2, hpi, Real.sin_pi_div_two, Real.cos_pi_div_two]
    norm_num
  obtain ⟨k, hk, heq⟩ := hcl 0 (by norm_num)
  interval_cases k
  · rw [h0] at heq
    norm_num at heq
  · rw [h1, h0] at heq
    norm_num at heq

/-- C6 (amended): for every T > 0 and step j, `mean1[j] + mean2[j]` equals
`10 + 0.2 * (sin(pi j/T) + cos(pi j/T))`, and the deviations from 10 are
symmetric about the quarter sweep, not about 10: two steps j and j2 with
`2 * (j + j2) = T` (the reflection j to T/2 - j) carry equal deviations. -/
theorem C6_amended_sum_identity_symmetry (T j j2 : ℕ) (hT : 0 < T) :
    Gen.mean1 T j + Gen.mean2 T j
        = 10 + 0.2 * (Real.sin (Real.pi * j / T) + Real.cos (Real.pi * j / T))
    ∧ (2 * (j + j2) = T →
        Gen.mean1 T j + Gen.mean2 T j = Gen.mean1 T j2 + Gen.mean2 T j2) := by
  constructor
  · unfold Gen.mean1 Gen.mean2
    ring
  · intro hsum
    have hT0 : (T : ℝ) ≠ 0 := Nat.cast_ne_zero.mpr hT.ne'
    have hcast : (2 : ℝ) * ((j : ℝ) + (j2 : ℝ)) = (T : ℝ) := by
      exact_mod_cast congrArg (fun m : ℕ => (m : ℝ)) hsum
    have hrefl : Real.pi * (j2 : ℝ) / (T : ℝ)
        = Real.pi / 2 - Real.pi * (j : ℝ) / (T : ℝ) := by
      have hj2 : (j2 : ℝ) = (T : ℝ) / 2 - (j : ℝ) := by linarith
      rw [hj2]
      field_simp
      ring
    unfold Gen.mean1 Gen.mean2
    rw [hrefl, Real.sin_pi_div_two_sub, Real.cos_pi_div_two_sub]
    ring

/-- Witness for C6 (amended) at T = 2 with the reflected step pair
j = 0, j2 = 1. -/
theorem C6_amended_sum_identity_symmetry_witness :
    (0 < 2 ∧ 2 * (0 + 1) = 2)
    ∧ Gen.mean1 2 0 + Gen.mean2 2 0 = Gen.mean1 2 1 + Gen.mean2 2 1 :=
  ⟨⟨by decide, by decide⟩,
    (C6_amended_sum_identity_symmetry 2 0 1 (by decide)).2 (by decide)⟩

/-- C1 (counterexample): under the constant noise stream u = -3/100 with
(N, T, D) = (1, 1, 2), the first feature stored in the signal-labeled
collection is -0.3 (its fill draws 5.2 + 4.3*u = 5.071 all miss bin 0 =
[0,5)), while the spec's formula built from the signal parameters gives
999.7 (draws 5 + 4*u = 4.88 all land in bin 0): the collection labeled
signal is not the one built from the signal parameters. -/
theorem C1_label_swap_counterexample :
    (((Gen.MakeTimeData (fun _ => -(3/100)) 1 1 2).sgnEntries.getD 0 []).getD 0 []).getD 0 0
      ≠ specSignalFeature (fun _ => -(3/100)) 1 2 0 0 0 := by
  have hL : (((Gen.MakeTimeData (fun _ => -(3/100)) 1 1 2).sgnEntries.getD 0 []).getD 0 []).getD 0 0
      = Gen.x2val (fun _ => -(3/100)) 1 2 0 0 0 := by
    simp [Gen.MakeTimeData, Gen.sgnSample, List.range_succ]
  have hnotin : ¬ Gen.inBin 2 0 (Gen.gausDraw (Gen.mean2 1 0) (Gen.sigma2 1 0) (-(3/100))) := by
    rw [Gen.mean2_at_zero, Gen.sigma2_at_zero]
    unfold Gen.gausDraw Gen.inBin
    push_cast
    norm_num
  have hx2 : Gen.x2val (fun _ => -(3/100)) 1 2 0 0 0 = 0 + (0 + 10 * -(3/100)) :=
    Gen.x2val_const_notIn (-(3/100)) 1 2 0 0 0 hnotin
  have hm : spec_signal_mean 1 0 = 5 := Gen.mean1_at_zero 1
  have hsg : spec_signal_sigma 1 0 = 4 := Gen.sigma1_at_zero 1
  have hin : Gen.inBin 2 0 (Gen.gausDraw (spec_signal_mean 1 0) (spec_signal_sigma 1 0) (-(3/100))) := by
    rw [hm, hsg]
    unfold Gen.gausDraw Gen.inBin
    push_cast
    norm_num
  have hspec : specSignalFeature (fun _ => -(3/100)) 1 2 0 0 0 = 1000 + (0 + 10 * -(3/100)) := by
    unfold specSignalFeature
    rw [Gen.binContent_all 2 _ 0 (fun m _ => hin)]
    norm_num [Gen.gausDraw]
  rw [hL, hx2, hspec]
  norm_num

/-- C1 (amended): relative to the spec's parameter naming the two labels
are swapped: every feature of the collection labeled signal (tree `sgn`)
is a bin count of the histogram filled with 1000 draws from
Gaussian(mean2[j], sigma2[j]) - the cos-based pair the spec names
background - plus Gaussian(0,10) noise, and every feature of the `bkg`
collection comes from the sin-based pair (mean1[j], sigma1[j]) the spec
names signal. -/
theorem C1_amended_label_swap (rng : ℕ → ℝ) (n ntime ndim i j k : ℕ)
    (hi : i < n) (hj : j < ntime) (hk : k < ndim) :
    (((Gen.MakeTimeData rng n ntime ndim).sgnEntries.getD i []).getD j []).getD k 0
      = (Gen.binContent ndim
          (fun m => Gen.gausDraw (Gen.mean2 ntime j) (Gen.sigma2 ntime j)
            (rng (Gen.base ntime ndim i j + 1000 + m))) k : ℝ)
        + Gen.gausDraw 0 10 (rng (Gen.base ntime ndim i j + 2000 + 2 * k + 1))
    ∧ (((Gen.MakeTimeData rng n ntime ndim).bkgEntries.getD i []).getD j []).getD k 0
      = (Gen.binContent ndim
          (fun m => Gen.gausDraw (Gen.mean1 ntime j) (Gen.sigma1 ntime j)
            (rng (Gen.base ntime ndim i j + m))) k : ℝ)
        + Gen.gausDraw 0 10 (rng (Gen.base ntime ndim i j + 2000 + 2 * k)) := by
  constructor
  · simp only [Gen.MakeTimeData]
    rw [Gen.getD_map_range _ n i _ hi]
    unfold Gen.sgnSample
    rw [Gen.getD_map_range _ ntime j _ hj, Gen.getD_map_range _ ndim k _ hk]
    rfl
  · simp only [Gen.MakeTimeData]
    rw [Gen.getD_map_range _ n i _ hi]
    unfold Gen.bkgSample
    rw [Gen.getD_map_range _ ntime j _ hj, Gen.getD_map_range _ ndim k _ hk]
    rfl

/-- Witness for C1 (amended) at the run (N, T, D) = (1, 1, 1), event 0,
step 0, feature 0, under the all-zero noise stream. -/
theorem C1_amended_label_swap_witness :
    0 < 1
    ∧ ((((Gen.MakeTimeData (fun _ => (0:ℝ)) 1 1 1).sgnEntries.getD 0 []).getD 0 []).getD 0 0
        = (Gen.binContent 1
            (fun _ => Gen.gausDraw (Gen.mean2 1 0) (Gen.sigma2 1 0) 0) 0 : ℝ)
          + Gen.gausDraw 0 10 0
      ∧ (((Gen.MakeTimeData (fun _ => (0:ℝ)) 1 1 1).bkgEntries.getD 0 []).getD 0 []).getD 0 0
        = (Gen.binContent 1
            (fun _ => Gen.gausDraw (Gen.mean1 1 0) (Gen.sigma1 1 0) 0) 0 : ℝ)
          + Gen.gausDraw 0 10 0) :=
  ⟨by decide,
    C1_amended_label_swap (fun _ => 0) 1 1 1 0 0 0 (by decide) (by decide) (by decide)⟩

/-- C7: the generator's output is a deterministic function of the seeded
noise stream - two runs whose streams agree on every consumed position
(all lie below `n * T * blockSize D`) give identical results - and the
output genuinely depends on the stream, so when `gRandom->SetSeed(0)`
draws a fresh entropy-based seed (the source's line 75 default) repeated
runs need not coincide. -/
theorem C7_seed_determinism :
    (∀ (rng1 rng2 : ℕ → ℝ) (n ntime ndim : ℕ),
      (∀ p, p < n * ntime * Gen.blockSize ndim → rng1 p = rng2 p) →
      Gen.MakeTimeData rng1 n ntime ndim = Gen.MakeTimeData rng2 n ntime ndim)
    ∧ (∃ rng1 rng2 : ℕ → ℝ,
      Gen.MakeTimeData rng1 1 1 1 ≠ Gen.MakeTimeData rng2 1 1 1) := by
  constructor
  · intro rng1 rng2 n ntime ndim hagree
    have hB : Gen.blockSize ndim = 2000 + 2 * ndim := rfl
    have hx2 : ∀ i j k, i < n → j < ntime → k < ndim →
        Gen.x2val rng1 ntime ndim i j k = Gen.x2val rng2 ntime ndim i j k := by
      intro i j k hi hj hk
      have hb := Gen.base_add_block_le n ntime ndim i j hi hj
      unfold Gen.x2val
      have hbin : Gen.binContent ndim
          (fun m => Gen.gausDraw (Gen.mean2 ntime j) (Gen.sigma2 ntime j)
            (rng1 (Gen.base ntime ndim i j + 1000 + m))) k
          = Gen.binContent ndim
          (fun m => Gen.gausDraw (Gen.mean2 ntime j) (Gen.sigma2 ntime j)
            (rng2 (Gen.base ntime ndim i j + 1000 + m))) k := by
        apply Gen.binContent_congr
        intro m hm
        rw [hagree _ (lt_of_lt_of_le (by omega) hb)]
      rw [hbin, hagree _ (lt_of_lt_of_le (by omega) hb)]
    have hx1 : ∀ i j k, i < n → j < ntime → k < ndim →
        Gen.x1val rng1 ntime ndim i j k = Gen.x1val rng2 ntime ndim i j k := by
      intro i j k hi hj hk
      have hb := Gen.base_add_block_le n ntime ndim i j hi hj
      unfold Gen.x1val
      have hbin : Gen.binContent ndim
          (fun m => Gen.gausDraw (Gen.mean1 ntime j) (Gen.sigma1 ntime j)
            (rng1 (Gen.base ntime ndim i j + m))) k
          = Gen.binContent ndim
          (fun m => Gen.gausDraw (Gen.mean1 ntime j) (Gen.sigma1 ntime j)
            (rng2 (Gen.base ntime ndim i j + m))) k := by
        apply Gen.binContent_congr
        intro m hm
        rw [hagree _ (lt_of_lt_of_le (by omega) hb)]
      rw [hbin, hagree _ (lt_of_lt_of_le (by omega) hb)]
    have hs : ∀ i ∈ List.range n,
        Gen.sgnSample rng1 ntime ndim i = Gen.sgnSample rng2 ntime ndim i := by
      intro i hi
      unfold Gen.sgnSample
      apply List.map_congr_left
      intro j hj
      apply List.map_congr_left
      intro k hk
      exact hx2 i j k (List.mem_range.mp hi) (List.mem_range.mp hj) (List.mem_range.mp hk)
    have hbg : ∀ i ∈ List.range n,
        Gen.bkgSample rng1 ntime ndim i = Gen.bkgSample rng2 ntime ndim i := by
      intro i hi
      unfold Gen.bkgSample
      apply List.map_congr_left
      intro j hj
      apply List.map_congr_left
      intro k hk
      exact hx1 i j k (List.mem_range.mp hi) (List.mem_range.mp hj) (List.mem_range.mp hk)
    unfold Gen.MakeTimeData
    simp only [Gen.GenResult.mk.injEq]
    exact ⟨trivial, trivial, List.map_congr_left hs, List.map_congr_left hbg,
      trivial, trivial⟩
  · refine ⟨fun _ => 0, fun _ => 1/100, fun hcontra => ?_⟩
    have hs := congrArg (fun r : Gen.GenResult =>
      ((r.sgnEntries.getD 0 []).getD 0 []).getD 0 0) hcontra
    simp only at hs
    have hL : (((Gen.MakeTimeData (fun _ => (0:ℝ)) 1 1 1).sgnEntries.getD 0 []).getD 0 []).getD 0 0
        = Gen.x2val (fun _ => (0:ℝ)) 1 1 0 0 0 := by
      simp [Gen.MakeTimeData, Gen.sgnSample, List.range_succ]
    have hR : (((Gen.MakeTimeData (fun _ => (1:ℝ)/100) 1 1 1).sgnEntries.getD 0 []).getD 0 []).getD 0 0
        = Gen.x2val (fun _ => (1:ℝ)/100) 1 1 0 0 0 := by
      simp [Gen.MakeTimeData, Gen.sgnSample, List.range_succ]
    rw [hL, hR] at hs
    have hin0 : Gen.inBin 1 0 (Gen.gausDraw (Gen.mean2 1 0) (Gen.sigma2 1 0) 0) := by
      rw [Gen.mean2_at_zero, Gen.sigma2_at_zero]
      unfold Gen.gausDraw Gen.inBin
      push_cast
      norm_num
    have hin1 : Gen.inBin 1 0 (Gen.gausDraw (Gen.mean2 1 0) (Gen.sigma2 1 0) ((1:ℝ)/100)) := by
      rw [Gen.mean2_at_zero, Gen.sigma2_at_zero]
      unfold Gen.gausDraw Gen.inBin
      push_cast
      norm_num
    rw [Gen.x2val_const_in 0 1 1 0 0 0 hin0,
      Gen.x2val_const_in ((1:ℝ)/100) 1 1 0 0 0 hin1] at hs
    norm_num at hs

/-- Witness for C7's deterministic half: the all-zero stream against a
stream that differs only beyond the 2002 consumed positions of the run
(N, T, D) = (1, 1, 1) still yields the identical result. -/
theorem C7_seed_determinism_witness :
    Gen.MakeTimeData (fun _ => (0:ℝ)) 1 1 1
      = Gen.MakeTimeData (fun p => if p < 2002 then (0:ℝ) else 42) 1 1 1 :=
  C7_seed_determinism.1 _ _ 1 1 1 (fun p hp => by
    have hp2 : p < 2002 := by
      simpa [Gen.blockSize] using hp
    simp [hp2])
